import Mathlib

/-!
Verification development for the `MapaProvincias` provincial dashboard
(`MapaWeb` client script).  The script loads two JSON documents, renders
per-province markers colored by the dominant land-cover class, a per-province
bar chart in a popup, a panel of per-class national maxima, and a legend.

The embedding below translates the script's data model and operations into
Lean.  JSON numbers (areas, percentages) are modelled as exact rationals `ℚ`;
JSON object entries (`Object.entries`) are modelled as association lists in
insertion order; the DOM/network effects of `init`/`cargarDatos` are modelled
as an event trace plus an explicit application state.
-/

/-- Per-class record inside a province feature's `clasificaciones` mapping:
`{area_km2, porcentaje, color}`. -/
structure ClaseDatos where
  area_km2 : ℚ
  porcentaje : ℚ
  color : String
deriving DecidableEq, Repr

/-- A province feature's class mapping, as `Object.entries` yields it:
key/value pairs in insertion order. -/
abbrev Clasificaciones := List (String × ClaseDatos)

/-- The dominant-class scan shared by `pointToLayer` (which stores
`datos.color`) and `onEachFeature` (which stores `nombre`): starting from
`claseDominante = null`, `maxPorcentaje = 0`, each entry with
`datos.porcentaje > maxPorcentaje` replaces the accumulator.  `f` is the
field the loop stores (`fun e => e.1` for the name, `fun e => e.2.color`
for the color). -/
def scanDominante (f : String × ClaseDatos → α) :
    Option α × ℚ → Clasificaciones → Option α × ℚ
  | acc, [] => acc
  | (a, m), e :: rest =>
    if m < e.2.porcentaje then scanDominante f (some (f e), e.2.porcentaje) rest
    else scanDominante f (a, m) rest

/-- The `onEachFeature` loop (lines 88–96): dominant class *name* and its
percentage, for the popup text. -/
def claseDominanteNombre (cl : Clasificaciones) : Option String × ℚ :=
  scanDominante (fun e => e.1) (none, 0) cl

/-- The `pointToLayer` loop (lines 65–73): dominant class *color* and its
percentage, for the marker fill. -/
def claseDominanteColor (cl : Clasificaciones) : Option String × ℚ :=
  scanDominante (fun e => e.2.color) (none, 0) cl

/-- JavaScript `x || fallback` where `x` is `null` or a string: `null` and
the empty string are falsy. -/
def jsOrElse : Option String → String → String
  | none, fb => fb
  | some s, fb => if s = "" then fb else s

/-- The option `fillColor: claseDominante || fallback` (fallback `#3388ff`)
from the `L.circleMarker`
options in `pointToLayer` (line 77). -/
def markerFillColor (cl : Clasificaciones) : String :=
  jsOrElse (claseDominanteColor cl).1 "#3388ff"

/-- Spec-side predicate: `e` attains the maximum percentage among `cl`. -/
def esMaxima (cl : Clasificaciones) (e : String × ClaseDatos) : Bool :=
  cl.all fun e2 => e2.2.porcentaje ≤ e.2.porcentaje

/-- Spec-side definition (from §4.2/§8 of the spec, *not* from the code):
the first entry, in iteration order, attaining the maximum percentage. -/
def primeraMaxima (cl : Clasificaciones) : Option (String × ClaseDatos) :=
  cl.find? (esMaxima cl)

/-- Running maximum of the percentages of `cl` seeded with `m`, mirroring
how `maxPorcentaje` evolves through the loop. -/
def maxPorcentajeDesde : ℚ → Clasificaciones → ℚ
  | m, [] => m
  | m, e :: rest => maxPorcentajeDesde (max m e.2.porcentaje) rest

theorem le_maxPorcentajeDesde (m : ℚ) (cl : Clasificaciones) :
    m ≤ maxPorcentajeDesde m cl := by
  induction cl generalizing m with
  | nil => exact le_refl m
  | cons e rest ih =>
    rw [maxPorcentajeDesde]
    exact le_trans (le_max_left _ _) (ih _)

theorem porcentaje_le_maxPorcentajeDesde (m : ℚ) {cl : Clasificaciones}
    {e : String × ClaseDatos} (he : e ∈ cl) :
    e.2.porcentaje ≤ maxPorcentajeDesde m cl := by
  induction cl generalizing m with
  | nil => cases he
  | cons e' rest ih =>
    rw [maxPorcentajeDesde]
    rcases List.mem_cons.mp he with h | h
    · subst h
      exact le_trans (le_max_right m e.2.porcentaje) (le_maxPorcentajeDesde _ rest)
    · exact ih _ h

theorem maxPorcentajeDesde_of_all_le {m : ℚ} {cl : Clasificaciones}
    (h : ∀ e ∈ cl, e.2.porcentaje ≤ m) : maxPorcentajeDesde m cl = m := by
  induction cl with
  | nil => rfl
  | cons e rest ih =>
    have he : e.2.porcentaje ≤ m := h e (List.mem_cons_self e rest)
    rw [maxPorcentajeDesde, max_eq_left he]
    exact ih fun e' h' => h e' (List.mem_cons_of_mem e h')

theorem maxPorcentajeDesde_attained {m : ℚ} {cl : Clasificaciones}
    (h : m < maxPorcentajeDesde m cl) :
    ∃ e ∈ cl, e.2.porcentaje = maxPorcentajeDesde m cl := by
  induction cl generalizing m with
  | nil =>
    rw [maxPorcentajeDesde] at h
    exact absurd h (lt_irrefl m)
  | cons e rest ih =>
    rw [maxPorcentajeDesde] at h ⊢
    by_cases hc : max m e.2.porcentaje < maxPorcentajeDesde (max m e.2.porcentaje) rest
    · obtain ⟨e', he', hval⟩ := ih hc
      exact ⟨e', List.mem_cons_of_mem e he', hval⟩
    · have heq : maxPorcentajeDesde (max m e.2.porcentaje) rest = max m e.2.porcentaje :=
        le_antisymm (not_lt.mp hc) (le_maxPorcentajeDesde _ _)
      have hme : max m e.2.porcentaje = e.2.porcentaje := by
        rcases max_cases m e.2.porcentaje with ⟨h1, _⟩ | ⟨h1, _⟩
        · exfalso
          rw [heq, h1] at h
          exact lt_irrefl m h
        · exact h1
      exact ⟨e, List.mem_cons_self e rest, by rw [heq, hme]⟩

theorem scanDominante_snd (f : String × ClaseDatos → α) (a : Option α) (m : ℚ)
    (cl : Clasificaciones) :
    (scanDominante f (a, m) cl).2 = maxPorcentajeDesde m cl := by
  induction cl generalizing a m with
  | nil => rfl
  | cons e rest ih =>
    rw [scanDominante, maxPorcentajeDesde]
    by_cases hc : m < e.2.porcentaje
    · rw [if_pos hc, ih, max_eq_right (le_of_lt hc)]
    · rw [if_neg hc, ih, max_eq_left (not_lt.mp hc)]

theorem scanDominante_of_all_le (f : String × ClaseDatos → α) (a : Option α) {m : ℚ}
    {cl : Clasificaciones} (h : ∀ e ∈ cl, e.2.porcentaje ≤ m) :
    scanDominante f (a, m) cl = (a, m) := by
  induction cl with
  | nil => rfl
  | cons e rest ih =>
    rw [scanDominante, if_neg (not_lt.mpr (h e (List.mem_cons_self e rest)))]
    exact ih fun e' h' => h e' (List.mem_cons_of_mem e h')

theorem scanDominante_fst (f : String × ClaseDatos → α) (a : Option α) (m : ℚ)
    (cl : Clasificaciones) (h : m < maxPorcentajeDesde m cl) :
    (scanDominante f (a, m) cl).1 =
      (cl.find? fun e => decide (e.2.porcentaje = maxPorcentajeDesde m cl)).map f := by
  induction cl generalizing a m with
  | nil => exact absurd h (lt_irrefl m)
  | cons e rest ih =>
    have hunfold : maxPorcentajeDesde m (e :: rest)
        = maxPorcentajeDesde (max m e.2.porcentaje) rest := by
      rw [maxPorcentajeDesde]
    by_cases hc : m < e.2.porcentaje
    · have hmax : max m e.2.porcentaje = e.2.porcentaje := max_eq_right (le_of_lt hc)
      have hscan : scanDominante f (a, m) (e :: rest)
          = scanDominante f (some (f e), e.2.porcentaje) rest := by
        rw [scanDominante, if_pos hc]
      by_cases hrest : e.2.porcentaje < maxPorcentajeDesde e.2.porcentaje rest
      · -- the running max is beaten later; `e` does not attain the final max
        have hM : maxPorcentajeDesde m (e :: rest) = maxPorcentajeDesde e.2.porcentaje rest := by
          rw [hunfold, hmax]
        have hne : ¬ (e.2.porcentaje = maxPorcentajeDesde m (e :: rest)) := by
          rw [hM]; exact ne_of_lt hrest
        rw [hscan, ih _ _ hrest, List.find?_cons_of_neg _ (by simpa using hne), hM]
      · -- `e` attains the final max: nothing after it strictly improves
        have hstay : maxPorcentajeDesde e.2.porcentaje rest = e.2.porcentaje :=
          le_antisymm (not_lt.mp hrest) (le_maxPorcentajeDesde _ _)
        have hM : maxPorcentajeDesde m (e :: rest) = e.2.porcentaje := by
          rw [hunfold, hmax, hstay]
        have hall : ∀ e' ∈ rest, e'.2.porcentaje ≤ e.2.porcentaje := by
          intro e' h'
          have := porcentaje_le_maxPorcentajeDesde e.2.porcentaje h'
          rw [hstay] at this
          exact this
        rw [hscan, scanDominante_of_all_le f _ hall,
          List.find?_cons_of_pos _ (by simp [hM])]
        rfl
    · have hmax : max m e.2.porcentaje = m := max_eq_left (not_lt.mp hc)
      have hM : maxPorcentajeDesde m (e :: rest) = maxPorcentajeDesde m rest := by
        rw [hunfold, hmax]
      have hrest : m < maxPorcentajeDesde m rest := by rw [hM] at h; exact h
      have hne : ¬ (e.2.porcentaje = maxPorcentajeDesde m (e :: rest)) := by
        rw [hM]
        exact ne_of_lt (lt_of_le_of_lt (not_lt.mp hc) hrest)
      have hscan : scanDominante f (a, m) (e :: rest) = scanDominante f (a, m) rest := by
        rw [scanDominante, if_neg hc]
      rw [hscan, ih _ _ hrest, List.find?_cons_of_neg _ (by simpa using hne), hM]

theorem find?_congr_mem {l : List α} {q r : α → Bool}
    (h : ∀ e ∈ l, q e = r e) : l.find? q = l.find? r := by
  induction l with
  | nil => rfl
  | cons e rest ih =>
    have he := h e (List.mem_cons_self e rest)
    by_cases hq : q e = true
    · rw [List.find?_cons_of_pos _ hq, List.find?_cons_of_pos _ (he ▸ hq)]
    · rw [List.find?_cons_of_neg _ hq,
        List.find?_cons_of_neg _ (by rw [← he]; exact hq),
        ih fun e' h' => h e' (List.mem_cons_of_mem e h')]

/-- With a positive maximum, the loop's pick is the first entry attaining the
maximum percentage, projected through `f`. -/
theorem scanDominante_eq_primeraMaxima (f : String × ClaseDatos → α)
    (cl : Clasificaciones) (h : ∃ e ∈ cl, 0 < e.2.porcentaje) :
    (scanDominante f (none, 0) cl).1 = (primeraMaxima cl).map f := by
  obtain ⟨e0, he0, hpos⟩ := h
  have hM : (0 : ℚ) < maxPorcentajeDesde 0 cl :=
    lt_of_lt_of_le hpos (porcentaje_le_maxPorcentajeDesde 0 he0)
  rw [scanDominante_fst f none 0 cl hM]
  unfold primeraMaxima
  congr 1
  apply find?_congr_mem
  intro e he
  have hiff : (e.2.porcentaje = maxPorcentajeDesde 0 cl)
      ↔ (∀ e2 ∈ cl, e2.2.porcentaje ≤ e.2.porcentaje) := by
    constructor
    · intro hEq e2 he2
      rw [hEq]
      exact porcentaje_le_maxPorcentajeDesde 0 he2
    · intro hall
      obtain ⟨e'', he'', hval⟩ := maxPorcentajeDesde_attained hM
      exact le_antisymm (porcentaje_le_maxPorcentajeDesde 0 he)
        (hval ▸ hall e'' he'')
  simp only [esMaxima, List.all_eq_true, decide_eq_true_eq]
  rw [Bool.eq_iff_iff]
  simp only [decide_eq_true_eq, List.all_eq_true]
  exact hiff.trans (by constructor <;> intro h2 e2 he2 <;> simpa using h2 e2 he2)

/-! ## C1: dominant class in the popup scan (`onEachFeature`) -/

/-- A concrete mapping whose entries all have percentage 0: the loop's
strict `>` against the initial `maxPorcentaje = 0` selects nothing. -/
def clTodoCero : Clasificaciones := [("A", ⟨1, 0, "#111111"⟩)]

/-- A mapping with a tie at the maximum, to exercise the first-wins rule. -/
def clEmpate : Clasificaciones :=
  [("A", ⟨1, 60, "#aa0000"⟩), ("B", ⟨1, 60, "#bb0000"⟩), ("C", ⟨1, 40, "#cc0000"⟩)]

/-- C1 (counterexample): on a non-empty mapping whose only entry has
percentage 0, the scan picks no class at all, while the maximum-percentage
entry exists; so "for every non-empty mapping the scan picks the maximum
entry" is false as stated. -/
theorem c1_contraejemplo :
    clTodoCero ≠ [] ∧
    (claseDominanteNombre clTodoCero).1 ≠ (primeraMaxima clTodoCero).map Prod.fst := by
  decide

/-- C1 (amended): for a province feature whose class mapping contains at
least one entry with positive percentage, the `onEachFeature` scan picks
exactly the first-encountered entry attaining the maximum percentage. -/
theorem c1_dominante_es_primera_maxima (cl : Clasificaciones)
    (h : ∃ e ∈ cl, 0 < e.2.porcentaje) :
    (claseDominanteNombre cl).1 = (primeraMaxima cl).map Prod.fst :=
  scanDominante_eq_primeraMaxima (fun e => e.1) cl h

/-- C1 witness: on a mapping with a tie at 60%, the scan agrees with the
first-maximum rule and picks the first of the tied entries. -/
theorem c1_dominante_es_primera_maxima_witness :
    (claseDominanteNombre clEmpate).1 = (primeraMaxima clEmpate).map Prod.fst ∧
    (claseDominanteNombre clEmpate).1 = some "A" :=
  ⟨c1_dominante_es_primera_maxima clEmpate (by decide), by decide⟩

/-! ## C5: marker fill color (`pointToLayer`) -/

/-- The Buenos Aires scenario from the spec: Bosque 40%, Agua 60%. -/
def escenarioBuenosAires : Clasificaciones :=
  [("Bosque", ⟨30000, 40, "#228B22"⟩), ("Agua", ⟨45000, 60, "#0077BE"⟩)]

/-- C5 (counterexample): a non-empty mapping whose only entry has
percentage 0 gets the fallback color `#3388ff`, not that entry's color; so
"the fallback is used exactly when the mapping is empty" is false. -/
theorem c5_contraejemplo :
    clTodoCero ≠ [] ∧ markerFillColor clTodoCero = "#3388ff" ∧
    "#3388ff" ∉ clTodoCero.map fun e => e.2.color := by
  decide

/-- C5 (amended): the marker fill is the dominant (first-maximum) class's
color whenever some entry has positive percentage and that color is a
non-empty string; when no entry has positive percentage (in particular when
the mapping is empty) the fallback `#3388ff` is used. -/
theorem c5_color_marcador (cl : Clasificaciones) :
    (∀ em, (∃ e ∈ cl, 0 < e.2.porcentaje) → primeraMaxima cl = some em →
        em.2.color ≠ "" → markerFillColor cl = em.2.color)
    ∧ ((∀ e ∈ cl, e.2.porcentaje ≤ 0) → markerFillColor cl = "#3388ff") := by
  constructor
  · intro em hpos hm hc
    unfold markerFillColor claseDominanteColor
    rw [scanDominante_eq_primeraMaxima (fun e => e.2.color) cl hpos, hm]
    simp [jsOrElse, hc]
  · intro hall
    unfold markerFillColor claseDominanteColor
    rw [scanDominante_of_all_le _ _ hall]
    rfl

/-- C5 witness: the spec's Buenos Aires scenario — the dominant class is
Agua and the marker is filled with Agua's color. -/
theorem c5_color_marcador_witness :
    markerFillColor escenarioBuenosAires = "#0077BE" ∧
    (claseDominanteNombre escenarioBuenosAires).1 = some "Agua" :=
  ⟨(c5_color_marcador escenarioBuenosAires).1 ("Agua", ⟨45000, 60, "#0077BE"⟩)
      (by decide) (by decide) (by decide),
    by decide⟩

/-! ## C3: detail chart data (`crearGraficoEnPopup`) -/

/-- One bar of the popup chart, as built by the projection at lines 139–144:
`{nombre, area, porcentaje, color}`.  The tooltip callback (line 181) reads
`datos[context.dataIndex].porcentaje` from this very tuple. -/
structure DatoGrafico where
  nombre : String
  area : ℚ
  porcentaje : ℚ
  color : String
deriving DecidableEq, Repr

/-- The per-entry projection of `crearGraficoEnPopup` (lines 139–144). -/
def proyectarDato (e : String × ClaseDatos) : DatoGrafico :=
  { nombre := e.1, area := e.2.area_km2, porcentaje := e.2.porcentaje, color := e.2.color }

/-- The comparator `(a, b) => b.area - a.area` (line 145): `a` may precede
`b` exactly when `b.area ≤ a.area`. -/
def areaDescendente (a b : DatoGrafico) : Prop := b.area ≤ a.area

instance : DecidableRel areaDescendente :=
  fun a b => inferInstanceAs (Decidable (b.area ≤ a.area))

instance : IsTotal DatoGrafico areaDescendente := ⟨fun a b => le_total b.area a.area⟩

instance : IsTrans DatoGrafico areaDescendente := ⟨fun _ _ _ hab hbc => le_trans hbc hab⟩

/-- The local `datos` in `crearGraficoEnPopup` (lines 138–145): project the class
mapping and sort it descending by area.  `Array.prototype.sort` is a stable,
comparator-consistent sort; a stable sort by this comparator is modelled by
insertion sort. -/
def datosGrafico (cl : Clasificaciones) : List DatoGrafico :=
  List.insertionSort areaDescendente (cl.map proyectarDato)

/-- Two classes with equal areas. -/
def clEmpateArea : Clasificaciones :=
  [("A", ⟨5, 50, "#a11111"⟩), ("B", ⟨5, 50, "#b11111"⟩)]

/-- C3 (counterexample): with two classes of equal area the bars are not
*strictly* descending by area — two adjacent bars tie. -/
theorem c3_contraejemplo :
    ¬ List.Pairwise (fun a b => b.area < a.area) (datosGrafico clEmpateArea) := by
  decide

/-- C3 (amended): the chart's bars are sorted in non-increasing (weakly
descending) order by area — strict descent fails exactly on area ties —,
the bars are a permutation of the projected source entries, and each bar's
tooltip percentage is the `porcentaje` of a source record carrying the
bar's name, area and color. -/
theorem c3_grafico_ordenado (cl : Clasificaciones) :
    List.Sorted areaDescendente (datosGrafico cl)
    ∧ (datosGrafico cl).Perm (cl.map proyectarDato)
    ∧ ∀ d ∈ datosGrafico cl, ∃ e ∈ cl, e.1 = d.nombre ∧ e.2.area_km2 = d.area
        ∧ e.2.porcentaje = d.porcentaje ∧ e.2.color = d.color := by
  refine ⟨List.sorted_insertionSort _ _, List.perm_insertionSort _ _, ?_⟩
  intro d hd
  have hd' : d ∈ cl.map proyectarDato := (List.perm_insertionSort _ _).mem_iff.mp hd
  obtain ⟨e, he, hed⟩ := List.mem_map.mp hd'
  subst hed
  exact ⟨e, he, rfl, rfl, rfl, rfl⟩

/-! ## C6: maxima panel (`crearGraficoMaximos`) -/

/-- Per-class record of the maxima document: `{provincia, porcentaje, color}`. -/
structure MaximoDatos where
  provincia : String
  porcentaje : ℚ
  color : String
deriving DecidableEq, Repr

/-- The maxima document, as `Object.entries` yields it. -/
abbrev MaximosData := List (String × MaximoDatos)

/-- The comparator `([, a], [, b]) => b.porcentaje - a.porcentaje` (line 231). -/
def porcentajeDescendente (a b : String × MaximoDatos) : Prop :=
  b.2.porcentaje ≤ a.2.porcentaje

instance : DecidableRel porcentajeDescendente :=
  fun a b => inferInstanceAs (Decidable (b.2.porcentaje ≤ a.2.porcentaje))

instance : IsTotal (String × MaximoDatos) porcentajeDescendente :=
  ⟨fun a b => le_total b.2.porcentaje a.2.porcentaje⟩

instance : IsTrans (String × MaximoDatos) porcentajeDescendente :=
  ⟨fun _ _ _ hab hbc => le_trans hbc hab⟩

/-- The local `sortedMaximos` (lines 230–231). -/
def sortedMaximos (m : MaximosData) : MaximosData :=
  List.insertionSort porcentajeDescendente m

/-- One rendered row of the maxima panel (lines 233–250): class name,
owning province, percentage and color swatch. -/
structure MaximoRow where
  clase : String
  provincia : String
  porcentaje : ℚ
  color : String
deriving DecidableEq, Repr

/-- The row built for one maxima entry inside the `forEach` (lines 233–250). -/
def filaMaximo (e : String × MaximoDatos) : MaximoRow :=
  ⟨e.1, e.2.provincia, e.2.porcentaje, e.2.color⟩

/-- The full rendered panel: one row per sorted entry. -/
def filasMaximos (m : MaximosData) : List MaximoRow :=
  (sortedMaximos m).map filaMaximo

/-- Two classes tied at 50%. -/
def maximosEmpate : MaximosData :=
  [("Bosque", ⟨"Chaco", 50, "#228B22"⟩), ("Agua", ⟨"Chubut", 50, "#0077BE"⟩)]

/-- C6 (counterexample): with two classes tied on percentage the panel rows
are not *strictly* descending by percentage. -/
theorem c6_contraejemplo :
    ¬ List.Pairwise (fun a b => b.porcentaje < a.porcentaje) (filasMaximos maximosEmpate) := by
  decide

/-- C6 (amended): the maxima panel renders one row per class — the rows are
a permutation of the per-entry projections, each carrying the owning
province, percentage and color — and the rows are sorted in non-increasing
(weakly descending) order by percentage; strict descent fails on ties. -/
theorem c6_maximos_ordenados (m : MaximosData) :
    List.Pairwise (fun a b => b.porcentaje ≤ a.porcentaje) (filasMaximos m)
    ∧ (filasMaximos m).Perm (m.map filaMaximo) := by
  constructor
  · exact List.pairwise_map.mpr (List.sorted_insertionSort porcentajeDescendente m)
  · exact (List.perm_insertionSort porcentajeDescendente m).map filaMaximo

/-! ## C7: legend (`crearLeyenda`) -/

/-- Catalog entry of `clasificaciones`: `{nombre, color}`. -/
structure Clase where
  nombre : String
  color : String
deriving DecidableEq, Repr

/-- The classification catalog, as `Object.entries` yields it. -/
abbrev Catalogo := List (String × Clase)

/-- The comparator `([, a], [, b]) => a.nombre.localeCompare(b.nombre)`
(line 260), modelled by the lexicographic order on strings. -/
def nombreAscendente (a b : String × Clase) : Prop := a.2.nombre ≤ b.2.nombre

instance : DecidableRel nombreAscendente :=
  fun a b => inferInstanceAs (Decidable (a.2.nombre ≤ b.2.nombre))

instance : IsTotal (String × Clase) nombreAscendente :=
  ⟨fun a b => le_total a.2.nombre b.2.nombre⟩

instance : IsTrans (String × Clase) nombreAscendente :=
  ⟨fun _ _ _ hab hbc => le_trans hab hbc⟩

/-- The local `sortedClases` (lines 259–260). -/
def sortedClases (c : Catalogo) : Catalogo :=
  List.insertionSort nombreAscendente c

/-- One legend row (lines 262–272): color swatch and display name. -/
structure LegendRow where
  color : String
  nombre : String
deriving DecidableEq, Repr

/-- The row built for one catalog entry inside the `forEach` (lines 262–272). -/
def filaLeyenda (e : String × Clase) : LegendRow :=
  ⟨e.2.color, e.2.nombre⟩

/-- The full rendered legend: one row per sorted catalog entry. -/
def filasLeyenda (c : Catalogo) : List LegendRow :=
  (sortedClases c).map filaLeyenda

/-- C7: the legend renders one swatch+label row per catalog class — the rows
are a permutation of the per-entry projections — and the rows are sorted
alphabetically (non-decreasing lexicographic order) by display name. -/
theorem c7_leyenda_ordenada (c : Catalogo) :
    List.Pairwise (fun a b => a.nombre ≤ b.nombre) (filasLeyenda c)
    ∧ (filasLeyenda c).Perm (c.map filaLeyenda) := by
  constructor
  · exact List.pairwise_map.mpr (List.sorted_insertionSort nombreAscendente c)
  · exact (List.perm_insertionSort nombreAscendente c).map filaLeyenda

/-! ## Application state: features, markers, charts -/

/-- One GeoJSON province feature's properties (lines 62–63, 101–104):
`{provincia, area_total_km2, total_pixels, clasificaciones}`. -/
structure Feature where
  provincia : String
  area_total_km2 : ℚ
  total_pixels : ℕ
  clasificaciones : Clasificaciones
deriving DecidableEq, Repr

/-- One rendered circle marker (lines 75–82), keeping the data-dependent
fields: owning province and fill color. -/
structure Marker where
  provincia : String
  fillColor : String
deriving DecidableEq, Repr

/-- The `L.circleMarker` built for one feature in `pointToLayer`. -/
def markerOf (f : Feature) : Marker :=
  ⟨f.provincia, markerFillColor f.clasificaciones⟩

/-- One Chart.js instance created by `new Chart(canvas, ...)` (line 151):
an identity plus the bar data it was built from. -/
structure ChartInstance where
  id : ℕ
  provincia : String
  datos : List DatoGrafico
deriving DecidableEq, Repr

/-- The `MapaProvincias` object state plus the DOM resources it drives:
the loaded structures (`datosProvincias`, `clasificaciones`), the rendered
outputs (`none` = not rendered), the retained reference `this.chart`, the
ids of live (created and not yet destroyed) chart instances, and the
`console.error` flag. -/
structure AppState where
  datosProvincias : Option (List Feature) := none
  clasificaciones : Option Catalogo := none
  markers : Option (List Marker) := none
  legendRows : Option (List LegendRow) := none
  maximosRows : Option (List MaximoRow) := none
  chart : Option ChartInstance := none
  liveCharts : List ℕ := []
  nextChartId : ℕ := 0
  errorLogged : Bool := false
deriving DecidableEq, Repr

/-- The state built by the constructor (lines 2–10): everything null. -/
def estadoInicial : AppState := {}

/-- Embeds `agregarMarcadoresProvincias` (lines 57–125): guard on
`this.datosProvincias`, then build one marker per feature. -/
def agregarMarcadoresProvincias (s : AppState) : AppState :=
  match s.datosProvincias with
  | none => s
  | some fs => {s with markers := some (fs.map markerOf)}

/-- Embeds `inicializarMapa` (lines 46–55): creates the Leaflet map and tile layer
(external resources, not data), then adds the province markers. -/
def inicializarMapa (s : AppState) : AppState :=
  agregarMarcadoresProvincias s

/-- Embeds `crearLeyenda` (lines 253–273): guard on `this.clasificaciones`, then
render the sorted legend rows. -/
def crearLeyenda (s : AppState) : AppState :=
  match s.clasificaciones with
  | none => s
  | some c => {s with legendRows := some (filasLeyenda c)}

/-- Embeds `crearGraficoMaximos` (lines 226–251): render the sorted maxima rows
from the document passed in (the mapping itself is not stored). -/
def crearGraficoMaximos (s : AppState) (m : MaximosData) : AppState :=
  {s with maximosRows := some (filasMaximos m)}

/-- Embeds `crearGraficoEnPopup` (lines 128–224).  `canvasPresente` models whether
`document.getElementById(canvasId)` found the popup's canvas (lines
130–132).  If so: destroy the retained chart if any (lines 134–136), then
build the sorted bar data and create a fresh instance (lines 138–223). -/
def crearGraficoEnPopup (s : AppState) (provinciaNombre : String)
    (cl : Clasificaciones) (canvasPresente : Bool) : AppState :=
  if canvasPresente then
    let s1 :=
      match s.chart with
      | some c => {s with liveCharts := s.liveCharts.filter (fun i => i ≠ c.id)}
      | none => s
    let nuevo : ChartInstance := ⟨s1.nextChartId, provinciaNombre, datosGrafico cl⟩
    { s1 with
      chart := some nuevo
      liveCharts := nuevo.id :: s1.liveCharts
      nextChartId := s1.nextChartId + 1 }
  else s

/-! ## C4: single live chart instance -/

/-- Chart-resource invariant: `this.chart` is the single live instance, and
its id was allocated before the current counter. -/
def chartInv (s : AppState) : Bool :=
  match s.chart with
  | none => s.liveCharts.isEmpty
  | some c => s.liveCharts == [c.id] && c.id < s.nextChartId

/-- One popup-open interaction: target province, its class mapping, and
whether the popup's canvas element was found. -/
structure Apertura where
  provincia : String
  cl : Clasificaciones
  canvas : Bool
deriving DecidableEq, Repr

/-- The state transition of one `popupopen` event (lines 118–122). -/
def abrirDetalle (s : AppState) (a : Apertura) : AppState :=
  crearGraficoEnPopup s a.provincia a.cl a.canvas

theorem chartInv_crearGraficoEnPopup (s : AppState) (p : String)
    (cl : Clasificaciones) (b : Bool) (h : chartInv s = true) :
    chartInv (crearGraficoEnPopup s p cl b) = true := by
  cases b with
  | false => simpa [crearGraficoEnPopup] using h
  | true =>
    cases hchart : s.chart with
    | none =>
      have hlive : s.liveCharts = [] := by
        unfold chartInv at h
        rw [hchart] at h
        exact List.isEmpty_iff.mp h
      simp [crearGraficoEnPopup, chartInv, hchart, hlive, Nat.lt_succ_self]
    | some c =>
      unfold chartInv at h
      rw [hchart, Bool.and_eq_true] at h
      obtain ⟨hlive, _⟩ := h
      have hlive' : s.liveCharts = [c.id] := by simpa using hlive
      simp [crearGraficoEnPopup, chartInv, hchart, hlive', Nat.lt_succ_self]

theorem liveCharts_length_le_one (s : AppState) (h : chartInv s = true) :
    s.liveCharts.length ≤ 1 := by
  unfold chartInv at h
  cases hchart : s.chart with
  | none =>
    rw [hchart] at h
    rw [List.isEmpty_iff.mp h]
    exact Nat.zero_le 1
  | some c =>
    rw [hchart, Bool.and_eq_true] at h
    obtain ⟨hlive, _⟩ := h
    have hlive' : s.liveCharts = [c.id] := by simpa using hlive
    rw [hlive']
    exact le_refl 1

/-- C4: from any state satisfying the chart invariant, (i) every sequence of
popup opens preserves it and leaves at most one live chart instance;
(ii) an open that finds its canvas while a chart is retained destroys the
retained instance — its id is no longer live — and leaves exactly one live
instance, the newly created chart. -/
theorem c4_grafico_unico (s : AppState) (aps : List Apertura) (p : String)
    (cl : Clasificaciones) (c : ChartInstance) :
    (chartInv s = true → chartInv (aps.foldl abrirDetalle s) = true
      ∧ (aps.foldl abrirDetalle s).liveCharts.length ≤ 1)
    ∧ (chartInv s = true → s.chart = some c →
        c.id ∉ (crearGraficoEnPopup s p cl true).liveCharts
        ∧ (crearGraficoEnPopup s p cl true).liveCharts.length = 1
        ∧ (crearGraficoEnPopup s p cl true).chart
            = some ⟨s.nextChartId, p, datosGrafico cl⟩) := by
  constructor
  · intro h
    have hfold : chartInv (aps.foldl abrirDetalle s) = true := by
      induction aps generalizing s with
      | nil => exact h
      | cons a rest ih =>
        exact ih _ (chartInv_crearGraficoEnPopup s a.provincia a.cl a.canvas h)
    exact ⟨hfold, liveCharts_length_le_one _ hfold⟩
  · intro h hchart
    unfold chartInv at h
    rw [hchart, Bool.and_eq_true] at h
    obtain ⟨hlive, hlt⟩ := h
    have hlive' : s.liveCharts = [c.id] := by simpa using hlive
    have hlt' : c.id < s.nextChartId := by simpa using hlt
    refine ⟨?_, ?_, ?_⟩
    · simp [crearGraficoEnPopup, hchart, hlive']
      exact Nat.ne_of_lt hlt'
    · simp [crearGraficoEnPopup, hchart, hlive']
    · simp [crearGraficoEnPopup, hchart]

/-- C4 witness: open Chaco's detail, then Salta's — after the second open
the first chart (id 0) is destroyed and exactly one chart is live. -/
theorem c4_grafico_unico_witness :
    (0 : ℕ) ∉ (crearGraficoEnPopup
        (crearGraficoEnPopup estadoInicial "Chaco" escenarioBuenosAires true)
        "Salta" clEmpate true).liveCharts
    ∧ (crearGraficoEnPopup
        (crearGraficoEnPopup estadoInicial "Chaco" escenarioBuenosAires true)
        "Salta" clEmpate true).liveCharts.length = 1 := by
  have h := (c4_grafico_unico
      (crearGraficoEnPopup estadoInicial "Chaco" escenarioBuenosAires true)
      [] "Salta" clEmpate ⟨0, "Chaco", datosGrafico escenarioBuenosAires⟩).2
    (by decide) (by decide)
  exact ⟨h.1, h.2.1⟩

/-! ## C8: loaded structures are read-only after load -/

/-- C8: no renderer mutates the loaded structures — each of the four
renderers leaves `datosProvincias` and `clasificaciones` unchanged.  (The
maxima mapping is consumed as a value argument; every sort in the source
runs on a fresh array built by `Object.entries`/`.map`, embedded here by
pure projections.) -/
theorem c8_datos_inmutables (s : AppState) (m : MaximosData) (p : String)
    (cl : Clasificaciones) (b : Bool) :
    ((agregarMarcadoresProvincias s).datosProvincias = s.datosProvincias
      ∧ (agregarMarcadoresProvincias s).clasificaciones = s.clasificaciones)
    ∧ ((crearGraficoMaximos s m).datosProvincias = s.datosProvincias
      ∧ (crearGraficoMaximos s m).clasificaciones = s.clasificaciones)
    ∧ ((crearLeyenda s).datosProvincias = s.datosProvincias
      ∧ (crearLeyenda s).clasificaciones = s.clasificaciones)
    ∧ ((crearGraficoEnPopup s p cl b).datosProvincias = s.datosProvincias
      ∧ (crearGraficoEnPopup s p cl b).clasificaciones = s.clasificaciones) := by
  refine ⟨?_, ⟨rfl, rfl⟩, ?_, ?_⟩
  · cases hd : s.datosProvincias <;> simp [agregarMarcadoresProvincias, hd]
  · cases hd : s.clasificaciones <;> simp [crearLeyenda, hd]
  · cases b <;> cases hd : s.chart <;> simp [crearGraficoEnPopup, hd]

/-! ## Data loading and initialization (`cargarDatos`, `init`) -/

/-- Outcome of one `await fetch(url)` + `await response.json()` round: the
network request may reject, the body may fail to parse, or a document is
produced. -/
inductive FetchOutcome (α : Type) where
  | ok (doc : α)
  | fetchError
  | parseError
deriving DecidableEq, Repr

/-- The primary document `datos_visualizacion_real.json`: its `provincias`
and `clasificaciones` fields may each be absent (`undefined`). -/
structure DocumentoPrincipal where
  provincias : Option (List Feature)
  clasificaciones : Option Catalogo
deriving DecidableEq, Repr

/-- The network environment of one page load: what each URL returns. -/
structure Entorno where
  principal : FetchOutcome DocumentoPrincipal
  maximos : FetchOutcome MaximosData
deriving DecidableEq, Repr

/-- Observable initialization events, listed in program order. -/
inductive Evento where
  | issuePrincipal
  | resolvePrincipal
  | issueMaximos
  | resolveMaximos
  | renderMaximos
  | renderMapa
  | renderLeyenda
  | logError
deriving DecidableEq, Repr

/-- Embeds `cargarDatos` (lines 26–44): fetch and parse the primary document,
assign `this.datosProvincias`/`this.clasificaciones`, then fetch and parse
the maxima document and render its panel; any rejection is caught, logged
and rethrown (the `Bool` is the no-throw flag).  A fetch rejection happens
before the document resolves; a parse rejection happens after. -/
def cargarDatos (env : Entorno) (s : AppState) : List Evento × AppState × Bool :=
  match env.principal with
  | .fetchError =>
    ([.issuePrincipal, .logError], {s with errorLogged := true}, false)
  | .parseError =>
    ([.issuePrincipal, .resolvePrincipal, .logError], {s with errorLogged := true}, false)
  | .ok d =>
    let s1 := {s with datosProvincias := d.provincias, clasificaciones := d.clasificaciones}
    match env.maximos with
    | .fetchError =>
      ([.issuePrincipal, .resolvePrincipal, .issueMaximos, .logError],
        {s1 with errorLogged := true}, false)
    | .parseError =>
      ([.issuePrincipal, .resolvePrincipal, .issueMaximos, .resolveMaximos, .logError],
        {s1 with errorLogged := true}, false)
    | .ok m =>
      ([.issuePrincipal, .resolvePrincipal, .issueMaximos, .resolveMaximos, .renderMaximos],
        crearGraficoMaximos s1 m, true)

/-- Embeds `init` (lines 12–24): await `cargarDatos`; on throw, the catch logs.  On
success, render map and legend only when both `this.datosProvincias` and
`this.clasificaciones` are truthy, else log an error. -/
def init (env : Entorno) (s : AppState) : List Evento × AppState :=
  match cargarDatos env s with
  | (t, s1, false) => (t ++ [.logError], {s1 with errorLogged := true})
  | (t, s1, true) =>
    if s1.datosProvincias.isSome && s1.clasificaciones.isSome then
      (t ++ [.renderMapa, .renderLeyenda], crearLeyenda (inicializarMapa s1))
    else
      (t ++ [.logError], {s1 with errorLogged := true})

/-! ## C9: sequential fetches -/

/-- Scans a trace checking that every `issueMaximos` is preceded by a
`resolvePrincipal`; the flag records whether the primary document has
resolved so far. -/
def maximosTrasPrincipal : List Evento → Bool → Bool
  | [], _ => true
  | e :: t, visto =>
    match e with
    | .resolvePrincipal => maximosTrasPrincipal t true
    | .issueMaximos => visto && maximosTrasPrincipal t visto
    | _ => maximosTrasPrincipal t visto

/-- C9: the two fetches are awaited sequentially — in every initialization
trace the maxima fetch is issued only after the primary fetch has resolved,
and each fetch is issued at most once. -/
theorem c9_fetch_secuencial (env : Entorno) :
    maximosTrasPrincipal (init env estadoInicial).1 false = true
    ∧ ((init env estadoInicial).1.count .issuePrincipal ≤ 1
      ∧ (init env estadoInicial).1.count .issueMaximos ≤ 1) := by
  rcases env with ⟨p, mm⟩
  cases p <;> cases mm <;>
    simp only [init, cargarDatos] <;>
    (try split) <;>
    simp [maximosTrasPrincipal, List.count_cons, List.count_nil, List.count_append]

/-! ## C2: any fetch/parse failure aborts initialization -/

/-- Returns `true` when the outcome is a network or parse failure. -/
def esFallo {α : Type} : FetchOutcome α → Bool
  | .ok _ => false
  | .fetchError => true
  | .parseError => true

/-- C2: if the fetch or the parse of either document fails, initialization
aborts: an error is logged, no fetch is retried (each URL is fetched at
most once), and nothing is rendered — no markers, no legend, no maxima
panel.  In particular a primary-fetch network error leaves map and legend
unrendered. -/
theorem c2_fallo_aborta (env : Entorno)
    (h : esFallo env.principal = true ∨ esFallo env.maximos = true) :
    (init env estadoInicial).2.errorLogged = true
    ∧ (init env estadoInicial).2.markers = none
    ∧ (init env estadoInicial).2.legendRows = none
    ∧ (init env estadoInicial).2.maximosRows = none
    ∧ Evento.renderMapa ∉ (init env estadoInicial).1
    ∧ Evento.renderLeyenda ∉ (init env estadoInicial).1
    ∧ ((init env estadoInicial).1.count .issuePrincipal ≤ 1
      ∧ (init env estadoInicial).1.count .issueMaximos ≤ 1) := by
  rcases env with ⟨p, mm⟩
  cases p <;> cases mm <;>
    simp_all [init, cargarDatos, esFallo, estadoInicial]

/-- C2 witness: the spec's scenario — the primary fetch fails with a
network error (and so does the maxima fetch): nothing renders, the error
is logged, nothing is retried. -/
theorem c2_fallo_aborta_witness :
    (init ⟨.fetchError, .fetchError⟩ estadoInicial).2.errorLogged = true
    ∧ (init ⟨.fetchError, .fetchError⟩ estadoInicial).2.markers = none
    ∧ (init ⟨.fetchError, .fetchError⟩ estadoInicial).2.legendRows = none
    ∧ (init ⟨.fetchError, .fetchError⟩ estadoInicial).2.maximosRows = none
    ∧ Evento.renderMapa ∉ (init ⟨.fetchError, .fetchError⟩ estadoInicial).1
    ∧ Evento.renderLeyenda ∉ (init ⟨.fetchError, .fetchError⟩ estadoInicial).1
    ∧ ((init ⟨.fetchError, .fetchError⟩ estadoInicial).1.count .issuePrincipal ≤ 1
      ∧ (init ⟨.fetchError, .fetchError⟩ estadoInicial).1.count .issueMaximos ≤ 1) :=
  c2_fallo_aborta ⟨.fetchError, .fetchError⟩ (Or.inl rfl)

/-! ## C10: missing fields yield a partially rendered page -/

/-- C10: if the primary document fetches and parses but `provincias` or
`clasificaciones` is missing, and the maxima document loads, the page is
*partially* rendered: the maxima fetch is still issued and its panel
rendered, while markers and legend are not, and an error is logged. -/
theorem c10_carga_parcial (d : DocumentoPrincipal) (m : MaximosData)
    (h : d.provincias = none ∨ d.clasificaciones = none) :
    (init ⟨.ok d, .ok m⟩ estadoInicial).2.maximosRows = some (filasMaximos m)
    ∧ Evento.issueMaximos ∈ (init ⟨.ok d, .ok m⟩ estadoInicial).1
    ∧ (init ⟨.ok d, .ok m⟩ estadoInicial).2.markers = none
    ∧ (init ⟨.ok d, .ok m⟩ estadoInicial).2.legendRows = none
    ∧ (init ⟨.ok d, .ok m⟩ estadoInicial).2.errorLogged = true
    ∧ Evento.renderMapa ∉ (init ⟨.ok d, .ok m⟩ estadoInicial).1
    ∧ Evento.renderLeyenda ∉ (init ⟨.ok d, .ok m⟩ estadoInicial).1 := by
  rcases h with h | h <;>
    simp [init, cargarDatos, crearGraficoMaximos, estadoInicial, h]

/-- C10 witness: a primary document with `provincias` missing and an empty
catalog present, with a loaded maxima document. -/
theorem c10_carga_parcial_witness :
    (init ⟨.ok ⟨none, some []⟩, .ok maximosEmpate⟩ estadoInicial).2.maximosRows
        = some (filasMaximos maximosEmpate)
    ∧ Evento.issueMaximos ∈ (init ⟨.ok ⟨none, some []⟩, .ok maximosEmpate⟩ estadoInicial).1
    ∧ (init ⟨.ok ⟨none, some []⟩, .ok maximosEmpate⟩ estadoInicial).2.markers = none
    ∧ (init ⟨.ok ⟨none, some []⟩, .ok maximosEmpate⟩ estadoInicial).2.legendRows = none
    ∧ (init ⟨.ok ⟨none, some []⟩, .ok maximosEmpate⟩ estadoInicial).2.errorLogged = true
    ∧ Evento.renderMapa ∉ (init ⟨.ok ⟨none, some []⟩, .ok maximosEmpate⟩ estadoInicial).1
    ∧ Evento.renderLeyenda ∉ (init ⟨.ok ⟨none, some []⟩, .ok maximosEmpate⟩ estadoInicial).1 :=
  c10_carga_parcial ⟨none, some []⟩ maximosEmpate (Or.inl rfl)
